import Mathlib

/-!
Verification of the retle package: an exponential-backoff retry helper.

The Go source (retle.go) is shallowly embedded here:
* `time.Duration` (an int64 count of nanoseconds) becomes `ℤ`;
* a `float64` value becomes the rational it denotes (every finite
  float64 is a rational), so the multiplier field is `ℚ`;
* the interval update `time.Duration(float64(e.interval) * e.multiplier)`
  is modelled operation by operation: `toF64` is the int64-to-float64
  conversion (round to nearest, ties to even, exact up to 2^53), the
  float64 multiplication of the converted interval `x` by the
  multiplier `m = m.num / m.den` rounds the exact ratio
  `(x * m.num) / m.den` to 53 significant bits (`fl53R`, round to
  nearest, ties to even), and the conversion back to `time.Duration`
  truncates toward zero (`truncQ`);
* the rounding model has a 53-bit significand and an unbounded exponent
  range: it agrees with IEEE-754 binary64 wherever the computation
  neither overflows to infinity (magnitudes stay below about 2^1024)
  nor hits subnormals that survive truncation (a product below 1 in
  magnitude truncates to 0 either way), which covers every value
  reached in this development;
* a `context.Context` becomes `Ctx`: a boolean cancellation signal
  indexed by which post-call check observes it, plus the error value
  that `ctx.Err()` reports once cancellation fired;
* a `RetryFunc` becomes `ℕ → Bool × Option E`, giving the result of the
  i-th call (Go's `error` is `Option E`, `none` standing for nil);
* the possibly non-terminating retry loop is given fuel and returns a
  `RetryOut` trace: the sleep durations in order, the index one past the
  last operation call, the returned error, and the final timer state.

All arithmetic is written in kernel-computable integer form; the
lemmas `truncQ_eq_durTrunc`, `nlog2_le`, `lt_nlog2` and `rndNE_bounds`
connect the executable definitions to their mathematical
specifications.
-/

/-- Truncation toward zero of a rational as executable integer
division; `truncQ_eq_durTrunc` connects it to `durTrunc`. -/
def truncQ (q : ℚ) : ℤ :=
  q.num.tdiv q.den

/-- Fuel-based floor base-2 logarithm (the fuel bounds the recursion
depth so that the kernel can evaluate it). -/
def log2F : ℕ → ℕ → ℕ
  | 0, _ => 0
  | fuel + 1, n => if n < 2 then 0 else log2F fuel (n / 2) + 1

/-- Floor base-2 logarithm: `2 ^ nlog2 n ≤ n < 2 ^ (nlog2 n + 1)` for
nonzero n (`nlog2_le`, `lt_nlog2`). -/
def nlog2 (n : ℕ) : ℕ :=
  log2F n n

/-- Round the ratio a/b (for b > 0) to the nearest integer, ties to
even: the rounding of IEEE-754 binary64 arithmetic. -/
def rndNE (a b : ℤ) : ℤ :=
  if 2 * (a % b) < b then a / b
  else if b < 2 * (a % b) then a / b + 1
  else if (a / b) % 2 = 0 then a / b else a / b + 1

/-- Does 2^z ≤ a/d hold?  (Exact integer comparison.) -/
def pow2LeRatio (z : ℤ) (a d : ℕ) : Bool :=
  if 0 ≤ z then decide (d * 2 ^ z.toNat ≤ a)
  else decide (d ≤ a * 2 ^ (-z).toNat)

/-- The binary exponent ⌊log2 |n/d|⌋ of a nonzero ratio: one of the two
candidates given by the bit lengths of |n| and d, selected by an exact
comparison. -/
def qexp (n : ℤ) (d : ℕ) : ℤ :=
  if pow2LeRatio ((nlog2 n.natAbs : ℤ) - nlog2 d) n.natAbs d
  then (nlog2 n.natAbs : ℤ) - nlog2 d
  else (nlog2 n.natAbs : ℤ) - nlog2 d - 1

/-- Round the rational n/d (for d > 0) to 53 significant bits, nearest
value with ties to even: the significand is scaled into [2^52, 2^53)
and rounded by `rndNE`.  This is IEEE-754 binary64 (float64) rounding
with unbounded exponent range. -/
def fl53R (n : ℤ) (d : ℕ) : ℚ :=
  if n = 0 then 0
  else if 0 ≤ qexp n d - 52 then
    Rat.divInt (rndNE n ((d : ℤ) * 2 ^ (qexp n d - 52).toNat) *
      2 ^ (qexp n d - 52).toNat) 1
  else
    Rat.divInt (rndNE (n * 2 ^ (52 - qexp n d).toNat) (d : ℤ))
      (2 ^ (52 - qexp n d).toNat)

/-- Go's float64(i) for an integer i: exact for |i| ≤ 2^53, otherwise
rounded to 53 significant bits (nearest, ties to even).  Converting an
integer always yields an integer-valued float. -/
def toF64 (i : ℤ) : ℤ :=
  if i.natAbs ≤ 2 ^ 53 then i
  else rndNE i (2 ^ (nlog2 i.natAbs - 52)) * 2 ^ (nlog2 i.natAbs - 52)

/-- 2^1023, written as a literal so that the kernel can compare against
it (`f64Bound_eq`); products of this magnitude are safely inside
float64's finite range, whose true overflow threshold is just below
2^1024. -/
def f64Bound : ℤ := 89884656743115795386465259539451236680898848947115328636715040578866337902750481566354238661203768010560056939935696678829394884407208311246423715319737062188883946712432742638151109800623047059726541476042502884419075341171231440736956555270413618581675255342293149119973622969239858152417678164812112068608

/-- DefaultInitialInterval = 500 * time.Millisecond, in nanoseconds. -/
def DefaultInitialInterval : ℤ := 500 * 1000000

/-- DefaultMultiplier = 1.5 (written with `Rat.divInt` so that it
evaluates inside the kernel). -/
def DefaultMultiplier : ℚ := Rat.divInt 3 2

/-- ExpTimer tracks the current backoff interval and the growth
multiplier, mirroring the two-field Go struct. -/
structure ExpTimer where
  interval : ℤ
  multiplier : ℚ
deriving DecidableEq

/-- NewExpTimer builds the timer from its two fields. -/
def NewExpTimer (interval : ℤ) (multiplier : ℚ) : ExpTimer :=
  ⟨interval, multiplier⟩

/-- DefaultExpTimer builds the timer with the default options. -/
def DefaultExpTimer : ExpTimer :=
  NewExpTimer DefaultInitialInterval DefaultMultiplier

/-- NextDuration returns the interval before the call together with the
updated timer.  The new interval is
`time.Duration(float64(e.interval) * e.multiplier)`: the interval is
converted to float64 (`toF64`), that float is multiplied by the
multiplier in float64 arithmetic — the float64 product of the
integer-valued float x and m = m.num/m.den is the exact ratio
(x * m.num) / m.den rounded to 53 bits (`fl53R`) — and the result is
truncated toward zero back to an integer duration (`truncQ`). -/
def ExpTimer.NextDuration (e : ExpTimer) : ℤ × ExpTimer :=
  (e.interval,
   ⟨truncQ (fl53R (toF64 e.interval * e.multiplier.num) e.multiplier.den),
    e.multiplier⟩)

/-- Sleep sleeps for NextDuration: the slept duration is the first
component, the updated timer the second. -/
def ExpTimer.Sleep (e : ExpTimer) : ℤ × ExpTimer :=
  e.NextDuration

/-- The timer after n calls to NextDuration. -/
def ExpTimer.advance : ExpTimer → ℕ → ExpTimer
  | e, 0 => e
  | e, n + 1 => (e.NextDuration).2.advance n

/-- The first n values returned by successive NextDuration calls. -/
def ExpTimer.durations : ExpTimer → ℕ → List ℤ
  | _, 0 => []
  | e, n + 1 => (e.NextDuration).1 :: (e.NextDuration).2.durations n

/-- A context: `done i` tells whether cancellation has fired by the time
of the check that follows the i-th operation call, and `err` is the
error that `ctx.Err()` reports once done. -/
structure Ctx (E : Type) where
  done : ℕ → Bool
  err : E

/-- The observable outcome of a Retry run: the sleep durations in
order, the index one past the last operation call, the returned error,
and the timer state at return. -/
structure RetryOut (E : Type) where
  sleeps : List ℤ
  nextCall : ℕ
  err : Option E
  timer : ExpTimer
deriving DecidableEq

/-- The Retry loop with fuel, starting at call index i.  Each round:
call the operation; if it says stop, return its error; otherwise check
cancellation (return ctx.Err() at once, skipping the sleep, if it
fired); otherwise sleep for NextDuration and loop.  `none` means the
fuel ran out before the loop returned. -/
def ExpTimer.RetryFuel {E : Type} :
    ℕ → ExpTimer → Ctx E → (ℕ → Bool × Option E) → ℕ → Option (RetryOut E)
  | 0, _, _, _, _ => none
  | fuel + 1, e, ctx, f, i =>
    match f i with
    | (false, err) => some ⟨[], i + 1, err, e⟩
    | (true, _) =>
      if ctx.done i then
        some ⟨[], i + 1, some ctx.err, e⟩
      else
        match (e.Sleep).2.RetryFuel fuel ctx f (i + 1) with
        | none => none
        | some o => some ⟨(e.Sleep).1 :: o.sleeps, o.nextCall, o.err, o.timer⟩

/-- Retry on a timer, starting from the first call. -/
def ExpTimer.Retry {E : Type} (fuel : ℕ) (e : ExpTimer) (ctx : Ctx E)
    (f : ℕ → Bool × Option E) : Option (RetryOut E) :=
  ExpTimer.RetryFuel fuel e ctx f 0

/-- The package-level Retry: runs on a fresh DefaultExpTimer. -/
def Retry {E : Type} (fuel : ℕ) (ctx : Ctx E)
    (f : ℕ → Bool × Option E) : Option (RetryOut E) :=
  ExpTimer.Retry fuel DefaultExpTimer ctx f

/-- The literal `f64Bound` is 2^1023. -/
theorem f64Bound_eq : f64Bound = 2 ^ 1023 := by
  norm_num [f64Bound]

/-- Whenever the retry loop returns, the operation was called at least
once, each finished round slept exactly once, the multiplier was never
touched, and the returned error comes either from the last operation
call (which said stop) or from the cancellation check right after a
last call that said retry. -/
theorem retryFuel_spec {E : Type} :
    ∀ (fuel : ℕ) (e : ExpTimer) (ctx : Ctx E) (f : ℕ → Bool × Option E)
      (i : ℕ) (out : RetryOut E),
      ExpTimer.RetryFuel fuel e ctx f i = some out →
      out.timer.multiplier = e.multiplier ∧
      i < out.nextCall ∧
      out.sleeps.length = out.nextCall - 1 - i ∧
      (((f (out.nextCall - 1)).1 = false ∧
          out.err = (f (out.nextCall - 1)).2) ∨
       ((f (out.nextCall - 1)).1 = true ∧
          ctx.done (out.nextCall - 1) = true ∧ out.err = some ctx.err)) := by
  intro fuel
  induction fuel with
  | zero =>
    intro e ctx f i out h
    simp [ExpTimer.RetryFuel] at h
  | succ fuel ih =>
    intro e ctx f i out h
    rw [ExpTimer.RetryFuel] at h
    rcases hfi : f i with ⟨b, x⟩
    rw [hfi] at h
    cases b with
    | false =>
      simp only [Option.some.injEq] at h
      subst h
      refine ⟨rfl, Nat.lt_succ_self i, by simp, Or.inl ?_⟩
      simp [hfi]
    | true =>
      by_cases hdone : ctx.done i
      · rw [if_pos hdone] at h
        simp only [Option.some.injEq] at h
        subst h
        refine ⟨rfl, Nat.lt_succ_self i, by simp, Or.inr ?_⟩
        simp [hfi, hdone]
      · rw [if_neg hdone] at h
        rcases hrec : ExpTimer.RetryFuel fuel (e.Sleep).2 ctx f (i + 1)
          with _ | o
        · rw [hrec] at h
          exact absurd h (by simp)
        · rw [hrec] at h
          simp only [Option.some.injEq] at h
          subst h
          obtain ⟨hm, hlt, hlen, hlast⟩ := ih (e.Sleep).2 ctx f (i + 1) o hrec
          refine ⟨hm, ?_, ?_, hlast⟩
          · show i < o.nextCall
            omega
          · show ((e.Sleep).1 :: o.sleeps).length = o.nextCall - 1 - i
            simp only [List.length_cons, hlen]
            omega

/-- One round of the loop when the operation says stop: its error is
returned at once, with no sleep and no further call, the timer
untouched. -/
theorem retryFuel_stop {E : Type} (fuel : ℕ) (e : ExpTimer) (ctx : Ctx E)
    (f : ℕ → Bool × Option E) (i : ℕ) (err : Option E)
    (hstop : f i = (false, err)) :
    ExpTimer.RetryFuel (fuel + 1) e ctx f i = some ⟨[], i + 1, err, e⟩ := by
  rw [ExpTimer.RetryFuel, hstop]

/-- One round of the loop when the operation says retry but the
cancellation check fires: ctx.Err() is returned at once, with no sleep
and no further call, the timer untouched. -/
theorem retryFuel_cancel {E : Type} (fuel : ℕ) (e : ExpTimer) (ctx : Ctx E)
    (f : ℕ → Bool × Option E) (i : ℕ)
    (htrue : (f i).1 = true) (hdone : ctx.done i = true) :
    ExpTimer.RetryFuel (fuel + 1) e ctx f i =
      some ⟨[], i + 1, some ctx.err, e⟩ := by
  rcases hfi : f i with ⟨b, x⟩
  rw [hfi] at htrue
  cases b with
  | false => exact absurd htrue (by simp)
  | true => rw [ExpTimer.RetryFuel, hfi, if_pos hdone]

/-- The trace of a run in which the operation asks to retry for the
first N calls starting at index i, stops at call i+N, and the context
never cancels: N sleeps with the successive NextDuration values, N+1
calls in total, the stop call's error returned. -/
theorem retryFuel_failures {E : Type} (err : Option E) :
    ∀ (N fuel : ℕ) (e : ExpTimer) (ctx : Ctx E)
      (f : ℕ → Bool × Option E) (i : ℕ),
      (∀ j, j < N → (f (i + j)).1 = true) →
      f (i + N) = (false, err) →
      (∀ j, ctx.done j = false) →
      N < fuel →
      ExpTimer.RetryFuel fuel e ctx f i =
        some ⟨e.durations N, i + N + 1, err, e.advance N⟩ := by
  intro N
  induction N with
  | zero =>
    intro fuel e ctx f i _ hstop _ hfuel
    obtain ⟨fuel, rfl⟩ : ∃ k, fuel = k + 1 := ⟨fuel - 1, by omega⟩
    rw [Nat.add_zero] at hstop
    rw [retryFuel_stop fuel e ctx f i err hstop]
    rfl
  | succ N ih =>
    intro fuel e ctx f i htrue hstop hctx hfuel
    obtain ⟨fuel, rfl⟩ : ∃ k, fuel = k + 1 := ⟨fuel - 1, by omega⟩
    have h0 : (f i).1 = true := by
      have := htrue 0 (by omega)
      rwa [Nat.add_zero] at this
    rcases hfi : f i with ⟨b, x⟩
    rw [hfi] at h0
    subst h0
    have hrec : ExpTimer.RetryFuel fuel (e.Sleep).2 ctx f (i + 1) =
        some ⟨(e.Sleep).2.durations N, i + 1 + N + 1, err,
          (e.Sleep).2.advance N⟩ := by
      apply ih fuel (e.Sleep).2 ctx f (i + 1)
      · intro j hj
        have := htrue (j + 1) (by omega)
        rwa [show i + (j + 1) = i + 1 + j by omega] at this
      · rwa [show i + 1 + N = i + (N + 1) by omega]
      · exact hctx
      · omega
    rw [ExpTimer.RetryFuel, hfi, hctx i]
    simp only [Bool.false_eq_true, if_false, hrec]
    have hcall : i + 1 + N + 1 = i + (N + 1) + 1 := by omega
    simp only [ExpTimer.durations, ExpTimer.advance, ExpTimer.Sleep, hcall]

/-- Claim C1: if the operation reports shouldRetry on its first N calls
and stops with error err on call N+1, and the context never cancels,
Retry makes exactly N+1 calls, sleeps exactly N times with the first N
NextDuration values of the timer, and returns err. -/
theorem retry_failures_trace {E : Type} (N fuel : ℕ) (e : ExpTimer)
    (ctx : Ctx E) (f : ℕ → Bool × Option E) (err : Option E)
    (htrue : ∀ j, j < N → (f j).1 = true)
    (hstop : f N = (false, err))
    (hctx : ∀ j, ctx.done j = false)
    (hfuel : N < fuel) :
    ExpTimer.Retry fuel e ctx f =
      some ⟨e.durations N, N + 1, err, e.advance N⟩ := by
  have h := retryFuel_failures err N fuel e ctx f 0
    (by intro j hj; rw [Nat.zero_add]; exact htrue j hj)
    (by rwa [Nat.zero_add]) hctx hfuel
  rwa [Nat.zero_add] at h

/-- Witness for C1 at N = 2: two retries, then stop with error 7. -/
theorem retry_failures_trace_witness :
    ExpTimer.Retry 4 ⟨1, 2⟩ ⟨fun _ => false, (0 : ℕ)⟩
      (fun j => if j < 2 then (true, none) else (false, some 7)) =
      some ⟨[1, 2], 3, some 7, ⟨4, 2⟩⟩ := by
  have h := retry_failures_trace 2 4 ⟨1, 2⟩ ⟨fun _ => false, (0 : ℕ)⟩
    (fun j => if j < 2 then (true, none) else (false, some 7)) (some 7)
    (by
      intro j hj
      have : j = 0 ∨ j = 1 := by omega
      rcases this with rfl | rfl <;> rfl)
    rfl (fun j => rfl) (by omega)
  rw [h]
  decide

/-- Claim C3: when the operation asks to retry and the cancellation
check that follows that call fires, Retry returns the context's error
immediately: no sleep, no further operation call, timer unchanged. -/
theorem retry_cancelled_at_check {E : Type} (fuel : ℕ) (e : ExpTimer)
    (ctx : Ctx E) (f : ℕ → Bool × Option E) (i : ℕ)
    (htrue : (f i).1 = true) (hdone : ctx.done i = true) :
    ExpTimer.RetryFuel (fuel + 1) e ctx f i =
      some ⟨[], i + 1, some ctx.err, e⟩ :=
  retryFuel_cancel fuel e ctx f i htrue hdone

/-- Witness for C3: a cancelled context stops the loop at once with
the context's error 9. -/
theorem retry_cancelled_at_check_witness :
    ExpTimer.RetryFuel 5 ⟨1, 2⟩ ⟨fun _ => true, (9 : ℕ)⟩
      (fun _ => (true, none)) 0 = some ⟨[], 1, some 9, ⟨1, 2⟩⟩ :=
  retry_cancelled_at_check 4 ⟨1, 2⟩ ⟨fun _ => true, (9 : ℕ)⟩
    (fun _ => (true, none)) 0 rfl rfl

/-- Claim C4: if the operation returns (false, e) on some call, Retry
terminates on that call and returns exactly e, nil or not. -/
theorem retry_stop_returns_err {E : Type} (fuel : ℕ) (e : ExpTimer)
    (ctx : Ctx E) (f : ℕ → Bool × Option E) (i : ℕ) (err : Option E)
    (hstop : f i = (false, err)) :
    ExpTimer.RetryFuel (fuel + 1) e ctx f i = some ⟨[], i + 1, err, e⟩ :=
  retryFuel_stop fuel e ctx f i err hstop

/-- Witness for C4, once with a nil error (success) and once with a
real error, both propagated verbatim. -/
theorem retry_stop_returns_err_witness :
    ExpTimer.RetryFuel 3 ⟨1, 2⟩ ⟨fun _ => false, (0 : ℕ)⟩
      (fun _ => (false, none)) 0 = some ⟨[], 1, none, ⟨1, 2⟩⟩ ∧
    ExpTimer.RetryFuel 3 ⟨1, 2⟩ ⟨fun _ => false, (0 : ℕ)⟩
      (fun _ => (false, some 5)) 0 = some ⟨[], 1, some 5, ⟨1, 2⟩⟩ :=
  ⟨retry_stop_returns_err 2 ⟨1, 2⟩ ⟨fun _ => false, (0 : ℕ)⟩
      (fun _ => (false, none)) 0 none rfl,
   retry_stop_returns_err 2 ⟨1, 2⟩ ⟨fun _ => false, (0 : ℕ)⟩
      (fun _ => (false, some 5)) 0 (some 5) rfl⟩

/-- Claim C6: the package-level Retry is the Retry of a fresh default
timer: interval 500 milliseconds (500000000 ns) and multiplier 1.5, so
it produces the identical trace and result. -/
theorem retry_package_default :
    (∀ (E : Type) (fuel : ℕ) (ctx : Ctx E) (f : ℕ → Bool × Option E),
      Retry fuel ctx f =
        ExpTimer.Retry fuel (NewExpTimer (500 * 1000000) (Rat.divInt 3 2))
          ctx f) ∧
    DefaultExpTimer = ⟨500 * 1000000, Rat.divInt 3 2⟩ ∧
    DefaultMultiplier = 3 / 2 := by
  refine ⟨fun E fuel ctx f => rfl, rfl, ?_⟩
  rw [DefaultMultiplier, Rat.divInt_eq_div]
  norm_num

/-- Claim C7: whenever Retry returns, at least one operation call was
made (never a return before the first call), every finished round slept
exactly once (so no sleep follows the last call), and the returned
error is either the last call's own error (when it said stop) or the
context's error — the latter only when the last call said retry and the
single cancellation check right after it fired, before any sleep. -/
theorem retry_cancel_only_at_check {E : Type} (fuel : ℕ) (e : ExpTimer)
    (ctx : Ctx E) (f : ℕ → Bool × Option E) (i : ℕ) (out : RetryOut E)
    (h : ExpTimer.RetryFuel fuel e ctx f i = some out) :
    i < out.nextCall ∧
    out.sleeps.length = out.nextCall - 1 - i ∧
    (((f (out.nextCall - 1)).1 = false ∧
        out.err = (f (out.nextCall - 1)).2) ∨
     ((f (out.nextCall - 1)).1 = true ∧
        ctx.done (out.nextCall - 1) = true ∧ out.err = some ctx.err)) :=
  ⟨(retryFuel_spec fuel e ctx f i out h).2.1,
   (retryFuel_spec fuel e ctx f i out h).2.2.1,
   (retryFuel_spec fuel e ctx f i out h).2.2.2⟩

/-- Witness for C7: a run that is cancelled at the check after its
second call; the trace shows one sleep for the one finished round and
the context's error 9 returned. -/
theorem retry_cancel_only_at_check_witness :
    (0 : ℕ) < 2 ∧ ([(1 : ℤ)].length = 2 - 1 - 0) ∧
    ((true = false ∧ (some 9 : Option ℕ) = none) ∨
     (true = true ∧ true = true ∧ (some 9 : Option ℕ) = some 9)) :=
  retry_cancel_only_at_check 3 ⟨1, 2⟩ ⟨fun j => decide (1 ≤ j), (9 : ℕ)⟩
    (fun _ => (true, none)) 0 ⟨[1], 2, some 9, ⟨2, 2⟩⟩ (by decide)

/-- Claim C8: even on a context that is already cancelled at entry the
operation is called once, and if that first call says stop with error
err, Retry returns err — the operation's stop result takes precedence
over cancellation. -/
theorem retry_entered_cancelled_stop {E : Type} (fuel : ℕ) (e : ExpTimer)
    (ctx : Ctx E) (f : ℕ → Bool × Option E) (err : Option E)
    (hdone : ∀ j, ctx.done j = true) (hstop : f 0 = (false, err)) :
    ExpTimer.Retry (fuel + 1) e ctx f = some ⟨[], 1, err, e⟩ ∧
    ∀ (fuel' : ℕ) (out : RetryOut E),
      ExpTimer.RetryFuel fuel' e ctx f 0 = some out → 1 ≤ out.nextCall := by
  constructor
  · exact retryFuel_stop fuel e ctx f 0 err hstop
  · intro fuel' out h
    exact (retryFuel_spec fuel' e ctx f 0 out h).2.1

/-- Witness for C8: context always done, first call stops with error 4;
Retry returns error 4, not the context's error 9. -/
theorem retry_entered_cancelled_stop_witness :
    ExpTimer.Retry 3 ⟨1, 2⟩ ⟨fun _ => true, (9 : ℕ)⟩
      (fun _ => (false, some 4)) = some ⟨[], 1, some 4, ⟨1, 2⟩⟩ :=
  (retry_entered_cancelled_stop 2 ⟨1, 2⟩ ⟨fun _ => true, (9 : ℕ)⟩
    (fun _ => (false, some 4)) (some 4) (fun _ => rfl) rfl).1

/-- Claim C10: the multiplier field is never modified: NewExpTimer
stores it, NextDuration and Sleep keep it, and any returning Retry run
leaves the timer's multiplier as it was at entry. -/
theorem multiplier_never_modified :
    (∀ (i : ℤ) (m : ℚ), (NewExpTimer i m).multiplier = m) ∧
    (∀ e : ExpTimer,
      (e.NextDuration).2.multiplier = e.multiplier ∧
      (e.Sleep).2.multiplier = e.multiplier) ∧
    ∀ (E : Type) (fuel : ℕ) (e : ExpTimer) (ctx : Ctx E)
      (f : ℕ → Bool × Option E) (i : ℕ) (out : RetryOut E),
      ExpTimer.RetryFuel fuel e ctx f i = some out →
      out.timer.multiplier = e.multiplier := by
  refine ⟨fun i m => rfl, fun e => ⟨rfl, rfl⟩, ?_⟩
  intro E fuel e ctx f i out h
  exact (retryFuel_spec fuel e ctx f i out h).1

/-- Witness for C10: a two-call run whose final timer still has
multiplier 2. -/
theorem multiplier_never_modified_witness :
    (RetryOut.timer ⟨[1], 2, some 5, ⟨2, 2⟩⟩).multiplier =
      (⟨1, 2⟩ : ExpTimer).multiplier :=
  (multiplier_never_modified).2.2 ℕ 3 ⟨1, 2⟩ ⟨fun _ => false, 0⟩
    (fun j => if j < 1 then (true, none) else (false, some 5)) 0
    ⟨[1], 2, some 5, ⟨2, 2⟩⟩ (by decide)
